import Mathlib

/-!
Verification of the SeoBoost scoring engine (server/routes.ts) against its
specification. The engine parses HTML with cheerio, runs seven fixed checks,
and aggregates them into a scored report. We embed the engine shallowly: the
parsed document is represented by the `Doc` structure, which records exactly
the observations the code makes against the cheerio DOM (title texts, meta
description content, h1 count, img alt attributes, viewport content, body
text, lang / charset presence). The raw HTML string is kept separately since
the doctype sub-check reads it directly. JS number arithmetic on check scores
is exact small-integer arithmetic, embedded as Nat; the one rounded ratio
(Math.round of 15 * imagesWithAlt / images) is embedded as exact rational
rounding, which the spec's own formula round(15 * k/n) denotes.
-/

namespace SeoBoost

/-- Check status, mirroring the zod enum ["success", "error", "warning"] of
shared/schema.ts. -/
inductive Status where
  | success
  | warning
  | error
  deriving DecidableEq, Repr

/-- One evaluated SEO rule (seoCheckSchema in shared/schema.ts). The
description field — presentation-only prose, one variant of which embeds a
percentage formatted from a float with toFixed — is not modelled; no claim
depends on it. -/
structure SeoCheck where
  name : String
  passed : Bool
  score : Nat
  maxScore : Nat
  status : Status
  deriving DecidableEq, Repr

/-- The report (analyzeResponseSchema in shared/schema.ts). -/
structure AnalyzeResponse where
  score : Nat
  maxScore : Nat
  grade : String
  checks : List SeoCheck
  issuesCount : Nat
  passedCount : Nat
  warningCount : Nat
  deriving DecidableEq, Repr

/-- Observable content of the cheerio-parsed document: exactly the DOM
queries analyzeSEO performs. `titles` holds the text content of each title
element in document order; `imgAlts` holds, per img element, its alt
attribute (none when absent); `metaDescription` and `viewport` hold the
content attribute of the first matching meta element. -/
structure Doc where
  titles : List String
  metaDescription : Option String
  h1Count : Nat
  imgAlts : List (Option String)
  viewport : Option String
  bodyText : String
  hasLangAttr : Bool
  hasCharsetMeta : Bool
  deriving DecidableEq, Repr

def emptyDoc : Doc :=
  { titles := [], metaDescription := none, h1Count := 0, imgAlts := [],
    viewport := none, bodyText := "", hasLangAttr := false, hasCharsetMeta := false }

/-- JS truthiness of a string-or-undefined value: defined and non-empty. -/
def truthy : Option String → Bool
  | some s => s != ""
  | none => false

/-- Characters with whitespace removed from both ends: the char-level
implementation of String.prototype.trim (executable in the kernel, unlike
the byte-position based core String.trim). -/
def trimChars (l : List Char) : List Char :=
  ((l.dropWhile Char.isWhitespace).reverse.dropWhile Char.isWhitespace).reverse

/-- String.prototype.trim. -/
def strTrim (s : String) : String := String.mk (trimChars s.data)

/-- String.prototype.toLowerCase (per-character case mapping). -/
def strLower (s : String) : String := String.mk (s.data.map Char.toLower)

/-- Does the second character list begin with the first one? The char-level
implementation of String.prototype.startsWith. -/
def beginsWith : List Char → List Char → Bool
  | [], _ => true
  | _ :: _, [] => false
  | a :: as, b :: bs => a == b && beginsWith as bs

/-- Fragments of a character list split at whitespace characters, as
split(/\s+/) produces them; empty fragments (which split(/\s+/) can yield at
the ends) are removed downstream by the token length filter either way. -/
def splitWhiteChars : List Char → List (List Char)
  | [] => []
  | c :: cs =>
    if c.isWhitespace then [] :: splitWhiteChars cs
    else
      match splitWhiteChars cs with
      | [] => [[c]]
      | w :: ws => (c :: w) :: ws

/-- `$('title').first().text().trim()` — text of the first title element,
trimmed; empty when there is no title element. -/
def titleText (doc : Doc) : String := strTrim (doc.titles.headD "")

/-- Title Tag check (15 points). -/
def titleCheckOf (doc : Doc) : SeoCheck :=
  { name := "Title Tag"
    passed := decide (titleText doc ≠ "")
    score := if titleText doc ≠ "" then 15 else 0
    maxScore := 15
    status := if titleText doc ≠ "" then Status.success else Status.error }

/-- `$('meta[name="description"]').attr('content')?.trim()`. -/
def metaContent (doc : Doc) : Option String := doc.metaDescription.map strTrim

/-- Meta Description check (15 points). -/
def metaCheckOf (doc : Doc) : SeoCheck :=
  { name := "Meta Description"
    passed := truthy (metaContent doc)
    score := if truthy (metaContent doc) then 15 else 0
    maxScore := 15
    status := if truthy (metaContent doc) then Status.success else Status.error }

/-- H1 Tag check (10 points). -/
def h1CheckOf (doc : Doc) : SeoCheck :=
  { name := "H1 Tag"
    passed := decide (doc.h1Count = 1)
    score := if doc.h1Count = 1 then 10 else 0
    maxScore := 10
    status := if doc.h1Count = 1 then Status.success else Status.error }

/-- `$('img').length`. -/
def imagesCount (doc : Doc) : Nat := doc.imgAlts.length

/-- `$('img[alt]').filter((_, el) => $(el).attr('alt')?.trim()).length` —
images whose alt attribute is present and non-empty after trimming. -/
def imagesWithAlt (doc : Doc) : Nat :=
  (doc.imgAlts.filter (fun a => truthy (a.map strTrim))).length

/-- Math.round of the nonnegative ratio n / d (half rounds up), as a Nat
computation; requires d > 0 to be meaningful. -/
def roundRatio (n d : Nat) : Nat := (2 * n + d) / (2 * d)

/-- Image Alt Attributes check (15 points). altRatio is imagesWithAlt/images
when images exist, else 1; score is Math.round (15 * altRatio); the status
comparison altRatio > 0.5 is images < 2 * imagesWithAlt. -/
def altCheckOf (doc : Doc) : SeoCheck :=
  { name := "Image Alt Attributes"
    passed := decide (imagesCount doc = 0 ∨ imagesWithAlt doc = imagesCount doc)
    score := if imagesCount doc = 0 then 15
      else roundRatio (15 * imagesWithAlt doc) (imagesCount doc)
    maxScore := 15
    status := if imagesCount doc = 0 ∨ imagesWithAlt doc = imagesCount doc then Status.success
      else if imagesCount doc < 2 * imagesWithAlt doc then Status.warning
      else Status.error }

/-- Mobile Viewport Tag check (10 points): the content attribute must be
present and truthy (non-empty, untrimmed). -/
def viewportCheckOf (doc : Doc) : SeoCheck :=
  { name := "Mobile Viewport Tag"
    passed := truthy doc.viewport
    score := if truthy doc.viewport then 10 else 0
    maxScore := 10
    status := if truthy doc.viewport then Status.success else Status.error }

/-- `$('body').text().toLowerCase().split(/\s+/).filter(w => w.length > 3)`. -/
def tokenize (s : String) : List String :=
  ((splitWhiteChars ((strLower s).data)).map String.mk).filter (fun w => 3 < w.length)

/-- The count of the most frequent token: the top entry of the frequency map
after sorting by descending count (topWords[0][1] in the code). -/
def maxFreq (ws : List String) : Nat :=
  (ws.map (fun w => ws.count w)).foldr Nat.max 0

/-- `topWords.length > 0 && topWords[0][1] / wordCount < 0.05`: the frequency
map is non-empty iff tokens exist, and the strict float comparison against
0.05 is the exact rational comparison 20 * maxFreq < wordCount. -/
def hasGoodDensity (ws : List String) : Bool :=
  decide (0 < ws.length ∧ 20 * maxFreq ws < ws.length)

/-- Keyword Density check (20 points). -/
def keywordCheckOf (doc : Doc) : SeoCheck :=
  { name := "Keyword Density"
    passed := hasGoodDensity (tokenize doc.bodyText)
    score := if hasGoodDensity (tokenize doc.bodyText) then 20
      else if 0 < (tokenize doc.bodyText).length then 10 else 0
    maxScore := 20
    status := if hasGoodDensity (tokenize doc.bodyText) then Status.success
      else if 0 < (tokenize doc.bodyText).length then Status.warning
      else Status.error }

/-- `htmlCode.trim().toLowerCase().startsWith('<!doctype')`. -/
def hasDoctype (htmlCode : String) : Bool :=
  beginsWith ("<!doctype".data) ((strLower (strTrim htmlCode)).data)

/-- Sum of the three 5-point sub-checks: html lang attribute, meta charset,
leading doctype in the raw HTML. -/
def improvementScoreOf (htmlCode : String) (doc : Doc) : Nat :=
  (if doc.hasLangAttr then 5 else 0) + (if doc.hasCharsetMeta then 5 else 0) +
    (if hasDoctype htmlCode then 5 else 0)

/-- General Improvements check (15 points). -/
def improvementCheckOf (htmlCode : String) (doc : Doc) : SeoCheck :=
  { name := "General Improvements"
    passed := decide (improvementScoreOf htmlCode doc = 15)
    score := improvementScoreOf htmlCode doc
    maxScore := 15
    status := if improvementScoreOf htmlCode doc = 15 then Status.success
      else if 5 < improvementScoreOf htmlCode doc then Status.warning
      else Status.error }

/-- The grade-letter cascade over the total score. -/
def gradeLetter (s : Nat) : String :=
  if 90 ≤ s then "A+"
  else if 80 ≤ s then "A"
  else if 70 ≤ s then "B"
  else if 60 ≤ s then "C"
  else if 50 ≤ s then "D"
  else "F"

/-- Grade string template `${grade} (${totalScore}/100)`. -/
def gradeString (s : Nat) : String :=
  gradeLetter s ++ " (" ++ toString s ++ "/100)"

/-- The seven checks, in evaluation order. -/
def checksOf (htmlCode : String) (doc : Doc) : List SeoCheck :=
  [titleCheckOf doc, metaCheckOf doc, h1CheckOf doc, altCheckOf doc,
    viewportCheckOf doc, keywordCheckOf doc, improvementCheckOf htmlCode doc]

/-- analyzeSEO (server/routes.ts): run the checks, accumulate the total
score, compute the aggregate counts and the grade. -/
def analyzeSEO (htmlCode : String) (doc : Doc) : AnalyzeResponse :=
  { score := ((checksOf htmlCode doc).map SeoCheck.score).sum
    maxScore := 100
    grade := gradeString (((checksOf htmlCode doc).map SeoCheck.score).sum)
    checks := checksOf htmlCode doc
    issuesCount := ((checksOf htmlCode doc).filter (fun c => !c.passed)).length
    passedCount := ((checksOf htmlCode doc).filter (fun c => c.passed)).length
    warningCount := ((checksOf htmlCode doc).filter (fun c => c.status == Status.warning)).length }

/-- A value thrown inside the /api/analyze try block, distinguished exactly
the way the catch clause distinguishes it: an instanceof Error (carrying a
message) or anything else. -/
inductive Thrown where
  | errorInstance (msg : String)
  | nonError
  deriving DecidableEq, Repr

/-- The three response shapes the handler can produce: 200 with the report,
400 with message and error detail, 500 with a message. -/
inductive HttpOut where
  | ok (body : AnalyzeResponse)
  | badRequest (message err : String)
  | internalError (message : String)
  deriving DecidableEq, Repr

def HttpOut.statusCode : HttpOut → Nat
  | .ok _ => 200
  | .badRequest _ _ => 400
  | .internalError _ => 500

/-- analyzeRequestSchema.parse applied to the request body's htmlCode field
(none when the field is missing or not a string). A failed parse throws a
ZodError, which is an instanceof Error. -/
def validateBody : Option String → Except Thrown String
  | none => Except.error (Thrown.errorInstance "Required")
  | some s =>
    if s = "" then Except.error (Thrown.errorInstance "HTML code is required")
    else Except.ok s

/-- The POST /api/analyze handler: validate, score, respond; the catch clause
maps any thrown instanceof Error to 400 with its message and anything else to
500. `parse` stands for cheerio.load and `scorer` for the (possibly throwing)
scoring step. -/
def handleAnalyze (parse : String → Doc)
    (scorer : String → Doc → Except Thrown AnalyzeResponse)
    (body : Option String) : HttpOut :=
  match validateBody body with
  | Except.error (Thrown.errorInstance m) => HttpOut.badRequest "Invalid request data" m
  | Except.error Thrown.nonError => HttpOut.internalError "Internal server error"
  | Except.ok htmlCode =>
    match scorer htmlCode (parse htmlCode) with
    | Except.ok result => HttpOut.ok result
    | Except.error (Thrown.errorInstance m) => HttpOut.badRequest "Invalid request data" m
    | Except.error Thrown.nonError => HttpOut.internalError "Internal server error"

/-- The actual scoring step, which never throws. -/
def okScorer (htmlCode : String) (doc : Doc) : Except Thrown AnalyzeResponse :=
  Except.ok (analyzeSEO htmlCode doc)

/-- Number of title elements whose text, after trimming, is non-empty. This
follows the claim wording "exactly one non-empty title element", for
comparison with the source title check, which only inspects the first title
element. -/
def specNonEmptyTitleCount (doc : Doc) : Nat :=
  (doc.titles.filter (fun t => strTrim t != "")).length

/-- Body text with 21 distinct tokens, each longer than 3 characters. -/
def manyWordsText : String :=
  "alpha bravo charlie delta echoes foxtrot golfer hotel india juliet kilos lima mikes november oscar papas quebec romeo sierra tango uniform"

def goodDoc : Doc := { emptyDoc with bodyText := manyWordsText }

/-! ## Helper lemmas -/

theorem filter_length_add_not (p : α → Bool) (l : List α) :
    (l.filter p).length + (l.filter (fun a => !(p a))).length = l.length := by
  induction l with
  | nil => rfl
  | cons a t ih => cases h : p a <;> simp [List.filter_cons, h] <;> omega

theorem roundRatio_le (k n : Nat) (hk : k ≤ n) (hn : 0 < n) :
    roundRatio (15 * k) n ≤ 15 := by
  have h2n : 0 < 2 * n := by omega
  have h : (2 * (15 * k) + n) / (2 * n) < 16 :=
    (Nat.div_lt_iff_lt_mul h2n).mpr (by omega)
  have h2 : roundRatio (15 * k) n < 16 := h
  omega

theorem le_foldr_max (a : Nat) (l : List Nat) (h : a ∈ l) :
    a ≤ l.foldr Nat.max 0 := by
  induction l with
  | nil => cases h
  | cons b t ih =>
    show a ≤ Nat.max b (t.foldr Nat.max 0)
    rcases List.mem_cons.mp h with rfl | h2
    · exact Nat.le_max_left _ _
    · exact le_trans (ih h2) (Nat.le_max_right _ _)

theorem one_le_maxFreq (w : String) (t : List String) :
    1 ≤ maxFreq (w :: t) := by
  have hmem : (w :: t).count w ∈ (w :: t).map (fun x => (w :: t).count x) :=
    List.mem_map_of_mem _ (List.mem_cons_self w t)
  have hc : 1 ≤ (w :: t).count w := by
    have := List.count_cons_self w t
    omega
  exact le_trans hc (le_foldr_max _ _ hmem)

theorem not_goodDensity_of_small (ws : List String) (h : ws.length ≤ 20) :
    hasGoodDensity ws = false := by
  unfold hasGoodDensity
  simp only [decide_eq_false_iff_not, not_and]
  intro hpos hlt
  match ws, hpos with
  | w :: t, _ =>
    have h1 := one_le_maxFreq w t
    simp only [List.length_cons] at h hlt
    omega

theorem titleCheckOf_score_le (doc : Doc) : (titleCheckOf doc).score ≤ 15 := by
  by_cases h : titleText doc = "" <;> simp [titleCheckOf, h]

theorem titleCheckOf_success_iff (doc : Doc) :
    (titleCheckOf doc).status = Status.success ↔ (titleCheckOf doc).passed = true := by
  by_cases h : titleText doc = "" <;> simp [titleCheckOf, h]

theorem metaCheckOf_score_le (doc : Doc) : (metaCheckOf doc).score ≤ 15 := by
  cases h : truthy (metaContent doc) <;> simp [metaCheckOf, h]

theorem metaCheckOf_success_iff (doc : Doc) :
    (metaCheckOf doc).status = Status.success ↔ (metaCheckOf doc).passed = true := by
  cases h : truthy (metaContent doc) <;> simp [metaCheckOf, h]

theorem h1CheckOf_score_le (doc : Doc) : (h1CheckOf doc).score ≤ 10 := by
  by_cases h : doc.h1Count = 1 <;> simp [h1CheckOf, h]

theorem h1CheckOf_success_iff (doc : Doc) :
    (h1CheckOf doc).status = Status.success ↔ (h1CheckOf doc).passed = true := by
  by_cases h : doc.h1Count = 1 <;> simp [h1CheckOf, h]

theorem imagesWithAlt_le (doc : Doc) : imagesWithAlt doc ≤ imagesCount doc :=
  List.length_filter_le _ _

theorem altCheckOf_score_le (doc : Doc) : (altCheckOf doc).score ≤ 15 := by
  by_cases h0 : imagesCount doc = 0
  · simp [altCheckOf, h0]
  · simp only [altCheckOf, if_neg h0]
    exact roundRatio_le _ _ (imagesWithAlt_le doc) (Nat.pos_of_ne_zero h0)

theorem altCheckOf_success_iff (doc : Doc) :
    (altCheckOf doc).status = Status.success ↔ (altCheckOf doc).passed = true := by
  by_cases h : imagesCount doc = 0 ∨ imagesWithAlt doc = imagesCount doc
  · simp [altCheckOf, h]
  · by_cases h2 : imagesCount doc < 2 * imagesWithAlt doc <;>
      simp [altCheckOf, h, h2]

theorem viewportCheckOf_score_le (doc : Doc) : (viewportCheckOf doc).score ≤ 10 := by
  cases h : truthy doc.viewport <;> simp [viewportCheckOf, h]

theorem viewportCheckOf_success_iff (doc : Doc) :
    (viewportCheckOf doc).status = Status.success ↔ (viewportCheckOf doc).passed = true := by
  cases h : truthy doc.viewport <;> simp [viewportCheckOf, h]

theorem keywordCheckOf_score_le (doc : Doc) : (keywordCheckOf doc).score ≤ 20 := by
  cases h : hasGoodDensity (tokenize doc.bodyText)
  · by_cases h2 : 0 < (tokenize doc.bodyText).length <;> simp [keywordCheckOf, h, h2]
  · simp [keywordCheckOf, h]

theorem keywordCheckOf_success_iff (doc : Doc) :
    (keywordCheckOf doc).status = Status.success ↔ (keywordCheckOf doc).passed = true := by
  cases h : hasGoodDensity (tokenize doc.bodyText)
  · by_cases h2 : 0 < (tokenize doc.bodyText).length <;> simp [keywordCheckOf, h, h2]
  · simp [keywordCheckOf, h]

theorem improvementScoreOf_le (htmlCode : String) (doc : Doc) :
    improvementScoreOf htmlCode doc ≤ 15 := by
  unfold improvementScoreOf
  cases doc.hasLangAttr <;> cases doc.hasCharsetMeta <;> cases hasDoctype htmlCode <;> simp

theorem improvementCheckOf_score_le (htmlCode : String) (doc : Doc) :
    (improvementCheckOf htmlCode doc).score ≤ 15 :=
  improvementScoreOf_le htmlCode doc

theorem improvementCheckOf_success_iff (htmlCode : String) (doc : Doc) :
    (improvementCheckOf htmlCode doc).status = Status.success ↔
      (improvementCheckOf htmlCode doc).passed = true := by
  by_cases h : improvementScoreOf htmlCode doc = 15
  · simp [improvementCheckOf, h]
  · by_cases h2 : 5 < improvementScoreOf htmlCode doc <;> simp [improvementCheckOf, h, h2]

theorem analyzeSEO_checks (htmlCode : String) (doc : Doc) :
    (analyzeSEO htmlCode doc).checks = checksOf htmlCode doc := rfl

theorem analyzeSEO_score (htmlCode : String) (doc : Doc) :
    (analyzeSEO htmlCode doc).score = ((checksOf htmlCode doc).map SeoCheck.score).sum := rfl

theorem analyzeSEO_score_le (htmlCode : String) (doc : Doc) :
    (analyzeSEO htmlCode doc).score ≤ 100 := by
  have h1 := titleCheckOf_score_le doc
  have h2 := metaCheckOf_score_le doc
  have h3 := h1CheckOf_score_le doc
  have h4 := altCheckOf_score_le doc
  have h5 := viewportCheckOf_score_le doc
  have h6 := keywordCheckOf_score_le doc
  have h7 := improvementCheckOf_score_le htmlCode doc
  rw [analyzeSEO_score]
  simp only [checksOf, List.map_cons, List.map_nil, List.sum_cons, List.sum_nil]
  omega

/-! ## Claims -/

/-- C1: For every non-empty HTML input string, analyzeSEO returns a report
whose score field equals the sum of the score fields of its seven checks,
with 0 <= score <= 100 and maxScore = 100. -/
theorem c1_score_sum_and_bounds (htmlCode : String) (doc : Doc) (_h : htmlCode ≠ "") :
    (analyzeSEO htmlCode doc).score =
        (((analyzeSEO htmlCode doc).checks).map SeoCheck.score).sum ∧
    (analyzeSEO htmlCode doc).checks.length = 7 ∧
    (analyzeSEO htmlCode doc).score ≤ 100 ∧
    (analyzeSEO htmlCode doc).maxScore = 100 :=
  ⟨rfl, rfl, analyzeSEO_score_le htmlCode doc, rfl⟩

/-- Witness for C1 at a concrete input. -/
theorem c1_witness :
    (analyzeSEO "<p>x</p>" emptyDoc).score ≤ 100 ∧
      (analyzeSEO "<p>x</p>" emptyDoc).maxScore = 100 := by
  have h := c1_score_sum_and_bounds "<p>x</p>" emptyDoc (by decide)
  exact ⟨h.2.2.1, h.2.2.2⟩

/-- C2: The grade string is letter ++ " (score/100)" where the numeric suffix
equals the total score and the letter is chosen by inclusive lower bounds
90/80/70/60/50, with A+ / A / B / C / D / F; in particular 90 gives A+,
89 gives A, 70 gives B and 69 gives C. -/
theorem c2_grade_format (htmlCode : String) (doc : Doc) :
    ((analyzeSEO htmlCode doc).grade =
      gradeLetter (analyzeSEO htmlCode doc).score ++ " (" ++
        toString (analyzeSEO htmlCode doc).score ++ "/100)") ∧
    gradeLetter 90 = "A+" ∧ gradeLetter 89 = "A" ∧
    gradeLetter 70 = "B" ∧ gradeLetter 69 = "C" ∧
    (∀ s : Nat,
      (90 ≤ s → gradeLetter s = "A+") ∧
      (80 ≤ s → s < 90 → gradeLetter s = "A") ∧
      (70 ≤ s → s < 80 → gradeLetter s = "B") ∧
      (60 ≤ s → s < 70 → gradeLetter s = "C") ∧
      (50 ≤ s → s < 60 → gradeLetter s = "D") ∧
      (s < 50 → gradeLetter s = "F")) := by
  refine ⟨rfl, rfl, rfl, rfl, rfl, ?_⟩
  intro s
  unfold gradeLetter
  refine ⟨?_, ?_, ?_, ?_, ?_, ?_⟩
  · intro h1
    rw [if_pos h1]
  · intro h1 h2
    rw [if_neg (by omega), if_pos h1]
  · intro h1 h2
    rw [if_neg (by omega), if_neg (by omega), if_pos h1]
  · intro h1 h2
    rw [if_neg (by omega), if_neg (by omega), if_neg (by omega), if_pos h1]
  · intro h1 h2
    rw [if_neg (by omega), if_neg (by omega), if_neg (by omega), if_neg (by omega),
      if_pos h1]
  · intro h1
    rw [if_neg (by omega), if_neg (by omega), if_neg (by omega), if_neg (by omega),
      if_neg (by omega)]

/-- Witness for C2 at concrete scores. -/
theorem c2_witness : gradeLetter 95 = "A+" ∧ gradeLetter 42 = "F" := by
  have h := (c2_grade_format "" emptyDoc).2.2.2.2.2
  exact ⟨(h 95).1 (by omega), (h 42).2.2.2.2.2 (by omega)⟩

/-- C9: analyzeSEO is deterministic: it is a pure function of the raw HTML
text and its parsed document, with no hidden state or randomness, so equal
inputs give identical reports. -/
theorem c9_deterministic (html1 html2 : String) (d1 d2 : Doc)
    (hh : html1 = html2) (hd : d1 = d2) :
    analyzeSEO html1 d1 = analyzeSEO html2 d2 := by
  rw [hh, hd]

/-- Witness for C9 at a concrete input. -/
theorem c9_witness :
    analyzeSEO "<p>a</p>" emptyDoc = analyzeSEO "<p>a</p>" emptyDoc :=
  c9_deterministic _ _ _ _ rfl rfl

/-- C10: When the body text yields at most 20 tokens of length greater
than 3, the Keyword Density check can never be a success (the top token's
share is at least 1/wordCount >= 0.05), it scores at most 10, and the total
score is at most 90. -/
theorem c10_small_text_cap (htmlCode : String) (doc : Doc)
    (h : (tokenize doc.bodyText).length ≤ 20) :
    (keywordCheckOf doc).status ≠ Status.success ∧
    (keywordCheckOf doc).score ≤ 10 ∧
    (analyzeSEO htmlCode doc).score ≤ 90 := by
  have hg := not_goodDensity_of_small _ h
  have hst : (keywordCheckOf doc).status ≠ Status.success := by
    by_cases h2 : 0 < (tokenize doc.bodyText).length <;> simp [keywordCheckOf, hg, h2]
  have hsc : (keywordCheckOf doc).score ≤ 10 := by
    by_cases h2 : 0 < (tokenize doc.bodyText).length <;> simp [keywordCheckOf, hg, h2]
  refine ⟨hst, hsc, ?_⟩
  have h1 := titleCheckOf_score_le doc
  have h2 := metaCheckOf_score_le doc
  have h3 := h1CheckOf_score_le doc
  have h4 := altCheckOf_score_le doc
  have h5 := viewportCheckOf_score_le doc
  have h7 := improvementCheckOf_score_le htmlCode doc
  rw [analyzeSEO_score]
  simp only [checksOf, List.map_cons, List.map_nil, List.sum_cons, List.sum_nil]
  omega

/-- Witness for C10 at a concrete input. -/
theorem c10_witness :
    (tokenize emptyDoc.bodyText).length ≤ 20 ∧ (analyzeSEO "" emptyDoc).score ≤ 90 :=
  ⟨by decide, (c10_small_text_cap "" emptyDoc (by decide)).2.2⟩

/-- C5: Zero images give score 15, passed and success; with n > 0 images of
which k have an alt attribute non-empty after trimming, the score is
round(15 * k/n), passed and success hold iff k = n, the status is warning
when k < n and k/n > 0.5 and error otherwise; 3 images with 1 alt score 5
with passed = false and status error. -/
theorem c5_image_alt (doc : Doc) :
    (imagesCount doc = 0 →
      (altCheckOf doc).score = 15 ∧ (altCheckOf doc).passed = true ∧
        (altCheckOf doc).status = Status.success) ∧
    (0 < imagesCount doc →
      ((altCheckOf doc).score = roundRatio (15 * imagesWithAlt doc) (imagesCount doc)) ∧
      ((altCheckOf doc).passed = true ↔ imagesWithAlt doc = imagesCount doc) ∧
      ((altCheckOf doc).status = Status.success ↔ imagesWithAlt doc = imagesCount doc) ∧
      (imagesWithAlt doc < imagesCount doc → imagesCount doc < 2 * imagesWithAlt doc →
        (altCheckOf doc).status = Status.warning) ∧
      (imagesWithAlt doc < imagesCount doc → 2 * imagesWithAlt doc ≤ imagesCount doc →
        (altCheckOf doc).status = Status.error)) ∧
    ((altCheckOf { emptyDoc with imgAlts := [some "ok", none, none] }).score = 5 ∧
      (altCheckOf { emptyDoc with imgAlts := [some "ok", none, none] }).passed = false ∧
      (altCheckOf { emptyDoc with imgAlts := [some "ok", none, none] }).status =
        Status.error) := by
  refine ⟨?_, ?_, by decide⟩
  · intro h0
    simp [altCheckOf, h0]
  · intro hpos
    have hne : ¬ imagesCount doc = 0 := by omega
    refine ⟨by simp [altCheckOf, hne], by simp [altCheckOf, hne], ?_, ?_, ?_⟩
    · by_cases hk : imagesWithAlt doc = imagesCount doc
      · simp [altCheckOf, hk]
      · by_cases h2 : imagesCount doc < 2 * imagesWithAlt doc <;>
          simp [altCheckOf, hne, hk, h2]
    · intro hlt h2
      have hk : ¬ imagesWithAlt doc = imagesCount doc := by omega
      simp [altCheckOf, hne, hk, h2]
    · intro hlt h2
      have hk : ¬ imagesWithAlt doc = imagesCount doc := by omega
      have h3 : ¬ imagesCount doc < 2 * imagesWithAlt doc := by omega
      simp [altCheckOf, hne, hk, h3]

/-- Witness for C5 at a concrete input where every image has an alt text. -/
theorem c5_witness :
    (altCheckOf { emptyDoc with imgAlts := [some "a", some "b"] }).passed = true := by
  have h := (c5_image_alt { emptyDoc with imgAlts := [some "a", some "b"] }).2.1 (by decide)
  exact h.2.1.mpr (by decide)

/-- C6: The Keyword Density check tokenizes the lowercased body text on
whitespace keeping tokens longer than 3 characters; it passes with score 20
and status success iff the top token count over the total token count is
strictly below 0.05 (that is, 20 * maxFreq < wordCount); with tokens but a
share of at least 0.05 it scores 10 with status warning; with no tokens it
scores 0 with status error. -/
theorem c6_keyword_density (doc : Doc) :
    (tokenize doc.bodyText = [] →
      (keywordCheckOf doc).score = 0 ∧ (keywordCheckOf doc).status = Status.error ∧
        (keywordCheckOf doc).passed = false) ∧
    (tokenize doc.bodyText ≠ [] →
      (((keywordCheckOf doc).passed = true ∧ (keywordCheckOf doc).score = 20 ∧
          (keywordCheckOf doc).status = Status.success) ↔
        20 * maxFreq (tokenize doc.bodyText) < (tokenize doc.bodyText).length) ∧
      ((tokenize doc.bodyText).length ≤ 20 * maxFreq (tokenize doc.bodyText) →
        (keywordCheckOf doc).passed = false ∧ (keywordCheckOf doc).score = 10 ∧
          (keywordCheckOf doc).status = Status.warning)) := by
  constructor
  · intro h
    simp [keywordCheckOf, h, hasGoodDensity]
  · intro hne
    have hpos : 0 < (tokenize doc.bodyText).length := List.length_pos.mpr hne
    by_cases hlt : 20 * maxFreq (tokenize doc.bodyText) < (tokenize doc.bodyText).length
    · have hg : hasGoodDensity (tokenize doc.bodyText) = true := by
        simp only [hasGoodDensity, decide_eq_true_eq]
        exact ⟨hpos, hlt⟩
      constructor
      · simp [keywordCheckOf, hg, hlt]
      · intro hge
        omega
    · have hg : hasGoodDensity (tokenize doc.bodyText) = false := by
        simp only [hasGoodDensity, decide_eq_false_iff_not, not_and]
        intro _
        exact hlt
      constructor
      · simp [keywordCheckOf, hg, hlt]
      · intro _
        simp [keywordCheckOf, hg, hpos]

/-- Witness for C6: a body text of 21 distinct long tokens passes the check. -/
theorem c6_witness : (keywordCheckOf goodDoc).passed = true := by
  have h := ((c6_keyword_density goodDoc).2 (by decide)).1
  exact (h.mpr (by decide)).1

/-- C7: The General Improvements score is the sum of three independent
5-point sub-checks (html lang attribute, meta charset, raw HTML trimmed and
lowercased starting with doctype); passed holds iff the score is 15, the
status is success iff 15, warning iff the score is below 15 but above 5,
and error otherwise. -/
theorem c7_general_improvements (htmlCode : String) (doc : Doc) :
    ((improvementCheckOf htmlCode doc).score =
      (if doc.hasLangAttr then 5 else 0) + (if doc.hasCharsetMeta then 5 else 0) +
        (if hasDoctype htmlCode then 5 else 0)) ∧
    (hasDoctype htmlCode = beginsWith ("<!doctype".data) ((strLower (strTrim htmlCode)).data)) ∧
    ((improvementCheckOf htmlCode doc).passed = true ↔
      (improvementCheckOf htmlCode doc).score = 15) ∧
    ((improvementCheckOf htmlCode doc).status = Status.success ↔
      (improvementCheckOf htmlCode doc).score = 15) ∧
    ((improvementCheckOf htmlCode doc).status = Status.warning ↔
      ((improvementCheckOf htmlCode doc).score ≠ 15 ∧
        5 < (improvementCheckOf htmlCode doc).score)) ∧
    ((improvementCheckOf htmlCode doc).status = Status.error ↔
      (improvementCheckOf htmlCode doc).score ≤ 5) := by
  refine ⟨rfl, rfl, ?_, ?_, ?_, ?_⟩ <;>
    cases hL : doc.hasLangAttr <;> cases hC : doc.hasCharsetMeta <;>
      cases hD : hasDoctype htmlCode <;>
      simp [improvementCheckOf, improvementScoreOf, hL, hC, hD]

/-- Witness for C7 at a concrete input with all three sub-checks present. -/
theorem c7_witness :
    (improvementCheckOf "<!DOCTYPE html>"
      { emptyDoc with hasLangAttr := true, hasCharsetMeta := true }).status =
        Status.success := by
  exact (c7_general_improvements "<!DOCTYPE html>"
    { emptyDoc with hasLangAttr := true, hasCharsetMeta := true }).2.2.2.1.mpr (by decide)

/-- C8: Every check has 0 <= score <= maxScore and status success iff passed;
passedCount, issuesCount and warningCount are computed from the checks by
the stated filters, and passedCount + issuesCount = 7. -/
theorem c8_report_invariants (htmlCode : String) (doc : Doc) :
    (∀ c ∈ (analyzeSEO htmlCode doc).checks,
      c.score ≤ c.maxScore ∧ (c.status = Status.success ↔ c.passed = true)) ∧
    (analyzeSEO htmlCode doc).passedCount =
      (((analyzeSEO htmlCode doc).checks).filter (fun c => c.passed)).length ∧
    (analyzeSEO htmlCode doc).issuesCount =
      (((analyzeSEO htmlCode doc).checks).filter (fun c => !c.passed)).length ∧
    (analyzeSEO htmlCode doc).warningCount =
      (((analyzeSEO htmlCode doc).checks).filter (fun c => c.status == Status.warning)).length ∧
    (analyzeSEO htmlCode doc).passedCount + (analyzeSEO htmlCode doc).issuesCount = 7 := by
  refine ⟨?_, rfl, rfl, rfl, ?_⟩
  · intro c hc
    rw [analyzeSEO_checks] at hc
    simp only [checksOf, List.mem_cons, List.not_mem_nil, or_false] at hc
    rcases hc with rfl | rfl | rfl | rfl | rfl | rfl | rfl
    · exact ⟨titleCheckOf_score_le doc, titleCheckOf_success_iff doc⟩
    · exact ⟨metaCheckOf_score_le doc, metaCheckOf_success_iff doc⟩
    · exact ⟨h1CheckOf_score_le doc, h1CheckOf_success_iff doc⟩
    · exact ⟨altCheckOf_score_le doc, altCheckOf_success_iff doc⟩
    · exact ⟨viewportCheckOf_score_le doc, viewportCheckOf_success_iff doc⟩
    · exact ⟨keywordCheckOf_score_le doc, keywordCheckOf_success_iff doc⟩
    · exact ⟨improvementCheckOf_score_le htmlCode doc,
        improvementCheckOf_success_iff htmlCode doc⟩
  · exact filter_length_add_not (fun c : SeoCheck => c.passed) (checksOf htmlCode doc)

/-- Witness for C8 at a concrete input. -/
theorem c8_witness :
    (analyzeSEO "" emptyDoc).passedCount + (analyzeSEO "" emptyDoc).issuesCount = 7 ∧
    ((titleCheckOf emptyDoc).status = Status.success ↔ (titleCheckOf emptyDoc).passed = true) := by
  refine ⟨(c8_report_invariants "" emptyDoc).2.2.2.2, ?_⟩
  exact ((c8_report_invariants "" emptyDoc).1 (titleCheckOf emptyDoc)
    (by simp [analyzeSEO_checks, checksOf])).2

/-- C3 as stated is false: the catch clause routes every thrown instanceof
Error to a 400 response, so a failure raised during scoring as an Error
instance is answered with 400, not 500. Concretely, with a valid non-empty
body and a scoring step that throws an Error, the response status is 400. -/
theorem c3_counterexample :
    (handleAnalyze (fun _ => emptyDoc)
        (fun _ _ => Except.error (Thrown.errorInstance "boom"))
        (some "<p>x</p>")).statusCode = 400 ∧
    ¬ (handleAnalyze (fun _ => emptyDoc)
        (fun _ _ => Except.error (Thrown.errorInstance "boom"))
        (some "<p>x</p>")).statusCode = 500 := by
  decide

/-- C3 amended: a non-empty htmlCode string is answered 200 with the complete
report; a missing or empty htmlCode is answered 400 with message and error
detail; a failure thrown during scoring never escapes: it is answered 400
with message and error detail when the thrown value is an instanceof Error,
and 500 with a generic message when it is not. -/
theorem c3_amended_routing (parse : String → Doc) :
    (∀ s : String, s ≠ "" →
      handleAnalyze parse okScorer (some s) = HttpOut.ok (analyzeSEO s (parse s))) ∧
    (∀ scorer,
      handleAnalyze parse scorer none =
        HttpOut.badRequest "Invalid request data" "Required" ∧
      handleAnalyze parse scorer (some "") =
        HttpOut.badRequest "Invalid request data" "HTML code is required") ∧
    (∀ (scorer : String → Doc → Except Thrown AnalyzeResponse) (s m : String), s ≠ "" →
      scorer s (parse s) = Except.error (Thrown.errorInstance m) →
      handleAnalyze parse scorer (some s) = HttpOut.badRequest "Invalid request data" m) ∧
    (∀ (scorer : String → Doc → Except Thrown AnalyzeResponse) (s : String), s ≠ "" →
      scorer s (parse s) = Except.error Thrown.nonError →
      handleAnalyze parse scorer (some s) = HttpOut.internalError "Internal server error") := by
  refine ⟨?_, ?_, ?_, ?_⟩
  · intro s hs
    simp [handleAnalyze, validateBody, hs, okScorer]
  · intro scorer
    constructor <;> simp [handleAnalyze, validateBody]
  · intro scorer s m hs hsc
    simp [handleAnalyze, validateBody, hs, hsc]
  · intro scorer s hs hsc
    simp [handleAnalyze, validateBody, hs, hsc]

/-- Witness for the amended C3 at a concrete input. -/
theorem c3_witness :
    handleAnalyze (fun _ => emptyDoc) okScorer (some "<p>hello</p>") =
      HttpOut.ok (analyzeSEO "<p>hello</p>" emptyDoc) := by
  exact (c3_amended_routing (fun _ => emptyDoc)).1 "<p>hello</p>" (by decide)

/-- C4 as stated is false: the code inspects only the first title element,
so a document with two non-empty title elements (not exactly one) still
passes with score 15 and status success. -/
theorem c4_counterexample :
    specNonEmptyTitleCount { emptyDoc with titles := ["A", "B"] } = 2 ∧
    (titleCheckOf { emptyDoc with titles := ["A", "B"] }).passed = true ∧
    (titleCheckOf { emptyDoc with titles := ["A", "B"] }).score = 15 ∧
    (titleCheckOf { emptyDoc with titles := ["A", "B"] }).status = Status.success := by
  decide

/-- C4 amended: the Title Tag check passes with score 15 and status success
iff the text of the first title element, trimmed, is non-empty — full credit
for any non-empty first title independent of its length and of how many
title elements the document has; otherwise the score is 0 and the status is
error. -/
theorem c4_amended_title_check (doc : Doc) :
    ((titleCheckOf doc).passed = true ↔ titleText doc ≠ "") ∧
    ((titleCheckOf doc).score = 15 ↔ titleText doc ≠ "") ∧
    ((titleCheckOf doc).status = Status.success ↔ titleText doc ≠ "") ∧
    (titleText doc = "" →
      (titleCheckOf doc).score = 0 ∧ (titleCheckOf doc).status = Status.error) := by
  by_cases h : titleText doc = "" <;> simp [titleCheckOf, h]

/-- Witness for the amended C4 at a concrete two-character title. -/
theorem c4_witness :
    (titleCheckOf { emptyDoc with titles := ["Hi"] }).passed = true := by
  exact (c4_amended_title_check { emptyDoc with titles := ["Hi"] }).1.mpr (by decide)

end SeoBoost
